import Mathlib

/-!
Verification of the dry gas seal heat-transfer calculator.

The repository computes convective heat-transfer coefficients for the
rotating and stationary rings of a dry gas seal. The calculation core is
the function calculateHeatTransfer in src/unnamed/part_002, a pure
arithmetic transform from ten real-valued inputs (SealInputs, declared in
src/unnamed/part_001) to six derived quantities (SealResults). We embed
the TypeScript numbers as real numbers; JavaScript Math.pow on
non-negative bases is embedded as Real.rpow (the principal real power),
and Math.PI as Real.pi.
-/

namespace DryGasSeal

/-- Input record of the calculator, from src/unnamed/part_001
(interface SealInputs): ten real-valued physical inputs. -/
structure SealInputs where
  d_outer : ℝ
  n_rpm : ℝ
  rho : ℝ
  mu : ℝ
  lambda_gas : ℝ
  Pr : ℝ
  u_axial : ℝ
  delta_gap : ℝ
  d_hyd : ℝ
  B : ℝ

/-- Output record of the calculator, from src/unnamed/part_001
(interface SealResults): six derived quantities. -/
structure SealResults where
  Re_rot : ℝ
  Re_ax : ℝ
  Nu_s : ℝ
  H_s : ℝ
  Nu_r : ℝ
  H_r : ℝ

/-- Embedding of calculateHeatTransfer from src/unnamed/part_002.
The source destructures the input record, computes the angular velocity,
the two Reynolds numbers, the two Nusselt numbers and the two
heat-transfer coefficients by plain arithmetic, and returns a new
SealResults object. There is no validation and no failure path in the
source; every Math.pow call is embedded as Real.rpow. -/
noncomputable def calculateHeatTransfer (inputs : SealInputs) : SealResults :=
  let omega := 2 * Real.pi * inputs.n_rpm / 60.0
  let Re_rot := (inputs.rho * omega * inputs.d_outer * inputs.d_hyd) / (2 * inputs.mu)
  let Re_ax := (2 * inputs.rho * inputs.u_axial * inputs.delta_gap) / inputs.mu
  let Nu_s := 0.023 * inputs.B * Re_ax ^ (0.8 : ℝ) * inputs.Pr ^ (0.4 : ℝ)
  let H_s := (Nu_s * inputs.lambda_gas) / (2 * inputs.delta_gap)
  let term_in_Nu_r := (0.5 * Re_rot ^ (2 : ℝ) + Re_ax ^ (2 : ℝ)) * inputs.Pr
  let Nu_r := 0.135 * term_in_Nu_r ^ (1.0 / 3.0 : ℝ)
  let H_r := (Nu_r * inputs.lambda_gas) / inputs.d_hyd
  ⟨Re_rot, Re_ax, Nu_s, H_s, Nu_r, H_r⟩

/-- The algorithm exactly as the specification states it in its section 4.1,
written independently of the source for comparison: omega = 2·pi·n_rpm/60,
Re_rot = rho·omega·d_outer·d_hyd/(2·mu), Re_ax = 2·rho·u_axial·delta_gap/mu,
Nu_s = 0.023·B·Re_ax^0.8·Pr^0.4, H_s = Nu_s·lambda_gas/(2·delta_gap),
t = (0.5·Re_rot² + Re_ax²)·Pr, Nu_r = 0.135·t^(1/3),
H_r = Nu_r·lambda_gas/d_hyd. -/
noncomputable def specCompute (inputs : SealInputs) : SealResults :=
  let omega := 2 * Real.pi * inputs.n_rpm / 60
  let Re_rot := inputs.rho * omega * inputs.d_outer * inputs.d_hyd / (2 * inputs.mu)
  let Re_ax := 2 * inputs.rho * inputs.u_axial * inputs.delta_gap / inputs.mu
  let Nu_s := 0.023 * inputs.B * Re_ax ^ (0.8 : ℝ) * inputs.Pr ^ (0.4 : ℝ)
  let H_s := Nu_s * inputs.lambda_gas / (2 * inputs.delta_gap)
  let t := (0.5 * Re_rot ^ 2 + Re_ax ^ 2) * inputs.Pr
  let Nu_r := 0.135 * t ^ (1 / 3 : ℝ)
  let H_r := Nu_r * inputs.lambda_gas / inputs.d_hyd
  ⟨Re_rot, Re_ax, Nu_s, H_s, Nu_r, H_r⟩

/-- The reference input record INITIAL_INPUTS from src/App.tsx. -/
noncomputable def INITIAL_INPUTS : SealInputs :=
  ⟨0.150, 10300, 1.225, 1.81e-5, 0.026, 0.71, 5.0, 5.0e-6, 1.0e-5, 2.0⟩

/-- C1: for every input record, calculateHeatTransfer produces its six
outputs by exactly the formulas of the specification: the record it
returns coincides field by field with the one built from the specified
formulas. -/
theorem calculateHeatTransfer_eq_spec (inputs : SealInputs) :
    calculateHeatTransfer inputs = specCompute inputs := by
  simp only [calculateHeatTransfer, specCompute]
  norm_num [Real.rpow_two]

/-- Helper: under the domain constraints of section 3 with in addition a
strictly positive axial velocity, both heat-transfer coefficients are
strictly positive. -/
theorem H_s_H_r_pos (i : SealInputs) (hrho : 0 < i.rho) (hmu : 0 < i.mu)
    (hlam : 0 < i.lambda_gas) (hPr : 0 < i.Pr) (hu : 0 < i.u_axial)
    (hgap : 0 < i.delta_gap) (hdh : 0 < i.d_hyd) (hB : 0 < i.B)
    (hn : 0 ≤ i.n_rpm) (hd : 0 ≤ i.d_outer) :
    0 < (calculateHeatTransfer i).H_s ∧ 0 < (calculateHeatTransfer i).H_r := by
  simp only [calculateHeatTransfer]
  constructor
  · positivity
  · positivity

/-- C2 counterexample: on the reference inputs of src/App.tsx the code
returns Re_rot strictly below 100 (so nowhere near 29,090,472, not even
within several orders of magnitude) and Re_ax strictly below 4 (so not
approximately 676.8). -/
theorem reference_values_counterexample :
    (calculateHeatTransfer INITIAL_INPUTS).Re_rot < 100 ∧
    (calculateHeatTransfer INITIAL_INPUTS).Re_ax < 4 := by
  simp only [calculateHeatTransfer, INITIAL_INPUTS]
  constructor
  · have hπ := Real.pi_lt_d2
    have hπ0 := Real.pi_pos
    rw [div_lt_iff₀ (by norm_num)]
    nlinarith
  · norm_num

/-- C2 amended: on the reference inputs of src/App.tsx the code produces
Re_rot strictly between 54 and 55 (the exact value is (25235/1448)·pi,
about 54.75), Re_ax exactly 1225/362 (about 3.384), and strictly positive
H_s and H_r. -/
theorem reference_values :
    54 < (calculateHeatTransfer INITIAL_INPUTS).Re_rot ∧
    (calculateHeatTransfer INITIAL_INPUTS).Re_rot < 55 ∧
    (calculateHeatTransfer INITIAL_INPUTS).Re_ax = 1225 / 362 ∧
    0 < (calculateHeatTransfer INITIAL_INPUTS).H_s ∧
    0 < (calculateHeatTransfer INITIAL_INPUTS).H_r := by
  have hpos := H_s_H_r_pos INITIAL_INPUTS (by norm_num [INITIAL_INPUTS])
    (by norm_num [INITIAL_INPUTS]) (by norm_num [INITIAL_INPUTS])
    (by norm_num [INITIAL_INPUTS]) (by norm_num [INITIAL_INPUTS])
    (by norm_num [INITIAL_INPUTS]) (by norm_num [INITIAL_INPUTS])
    (by norm_num [INITIAL_INPUTS]) (by norm_num [INITIAL_INPUTS])
    (by norm_num [INITIAL_INPUTS])
  refine ⟨?_, ?_, ?_, hpos.1, hpos.2⟩
  · simp only [calculateHeatTransfer, INITIAL_INPUTS]
    have hπ := Real.pi_gt_d2
    rw [lt_div_iff₀ (by norm_num)]
    nlinarith
  · simp only [calculateHeatTransfer, INITIAL_INPUTS]
    have hπ := Real.pi_lt_d2
    have hπ0 := Real.pi_pos
    rw [div_lt_iff₀ (by norm_num)]
    nlinarith
  · simp only [calculateHeatTransfer, INITIAL_INPUTS]
    norm_num

/-- Modelled from the spec: the error type InvalidInputError of section 7,
carrying the offending field name and value. No such type and no
validation code exist anywhere in the source. -/
inductive InvalidInputError where
  | invalidInput : String → ℝ → InvalidInputError

/-- The calculator viewed through the error channel that the specification
assigns to compute. The source body of calculateHeatTransfer contains no
validation, no throw statement and no failure path of any kind, so its
translation into the Except error channel unconditionally returns
Except.ok of the computed record. -/
noncomputable def calculateHeatTransferE (inputs : SealInputs) :
    Except InvalidInputError SealResults :=
  Except.ok (calculateHeatTransfer inputs)

/-- The reference inputs with the viscosity mu replaced by 0, violating
the domain constraint mu strictly positive. -/
noncomputable def muZeroInputs : SealInputs :=
  ⟨0.150, 10300, 1.225, 0, 0.026, 0.71, 5.0, 5.0e-6, 1.0e-5, 2.0⟩

/-- C3 counterexample: on an input with mu = 0 the call does not fail at
all — it succeeds and returns a SealResults, so no InvalidInputError is
raised and a result record is returned on the very inputs the claim says
must be rejected. -/
theorem no_validation_counterexample :
    (calculateHeatTransferE muZeroInputs).isOk = true := rfl

/-- C3 amended: calculateHeatTransfer performs no validation. Even when
an input violates its domain constraint (in particular mu = 0 or negative,
or delta_gap = 0), the call does not fail with an InvalidInputError: it
performs its arithmetic and returns Except.ok of the computed SealResults. -/
theorem no_validation (i : SealInputs) (h : i.mu ≤ 0 ∨ i.delta_gap ≤ 0) :
    calculateHeatTransferE i = Except.ok (calculateHeatTransfer i) := rfl

/-- Witness for the amended C3 at the concrete input muZeroInputs. -/
theorem no_validation_witness :
    muZeroInputs.mu ≤ 0 ∧
      calculateHeatTransferE muZeroInputs = Except.ok (calculateHeatTransfer muZeroInputs) :=
  ⟨by norm_num [muZeroInputs],
   no_validation muZeroInputs (Or.inl (by norm_num [muZeroInputs]))⟩

/-- C9: calculateHeatTransfer is total over all real-valued input records,
including those violating the domain constraints of section 3 — for any
input whatsoever it returns a SealResults record through the error
channel as Except.ok, and never produces an error. -/
theorem total_no_error (i : SealInputs) :
    calculateHeatTransferE i = Except.ok (calculateHeatTransfer i) := rfl

/-- C4: for every input record satisfying the domain constraints of
section 3, compute does not fail (it returns Except.ok) and all six
outputs are well-defined real numbers, here established in the
strengthened form that each of them is non-negative. -/
theorem outputs_welldefined (i : SealInputs) (hd : 0 < i.d_outer) (hn : 0 ≤ i.n_rpm)
    (hrho : 0 < i.rho) (hmu : 0 < i.mu) (hlam : 0 < i.lambda_gas) (hPr : 0 < i.Pr)
    (hu : 0 ≤ i.u_axial) (hgap : 0 < i.delta_gap) (hdh : 0 < i.d_hyd) (hB : 0 < i.B) :
    calculateHeatTransferE i = Except.ok (calculateHeatTransfer i) ∧
    0 ≤ (calculateHeatTransfer i).Re_rot ∧ 0 ≤ (calculateHeatTransfer i).Re_ax ∧
    0 ≤ (calculateHeatTransfer i).Nu_s ∧ 0 ≤ (calculateHeatTransfer i).H_s ∧
    0 ≤ (calculateHeatTransfer i).Nu_r ∧ 0 ≤ (calculateHeatTransfer i).H_r := by
  refine ⟨rfl, ?_, ?_, ?_, ?_, ?_, ?_⟩ <;>
  · simp only [calculateHeatTransfer]
    positivity

/-- Witness for C4 at the reference inputs of src/App.tsx. -/
theorem outputs_welldefined_witness :
    0 ≤ (calculateHeatTransfer INITIAL_INPUTS).Re_rot ∧
    0 ≤ (calculateHeatTransfer INITIAL_INPUTS).Re_ax ∧
    0 ≤ (calculateHeatTransfer INITIAL_INPUTS).Nu_s ∧
    0 ≤ (calculateHeatTransfer INITIAL_INPUTS).H_s ∧
    0 ≤ (calculateHeatTransfer INITIAL_INPUTS).Nu_r ∧
    0 ≤ (calculateHeatTransfer INITIAL_INPUTS).H_r :=
  (outputs_welldefined INITIAL_INPUTS (by norm_num [INITIAL_INPUTS])
    (by norm_num [INITIAL_INPUTS]) (by norm_num [INITIAL_INPUTS])
    (by norm_num [INITIAL_INPUTS]) (by norm_num [INITIAL_INPUTS])
    (by norm_num [INITIAL_INPUTS]) (by norm_num [INITIAL_INPUTS])
    (by norm_num [INITIAL_INPUTS]) (by norm_num [INITIAL_INPUTS])
    (by norm_num [INITIAL_INPUTS])).2

/-- The input record i with its n_rpm field replaced by n, all other
fields held fixed; used to state claims that vary a single field. -/
def setRpm (i : SealInputs) (n : ℝ) : SealInputs :=
  ⟨i.d_outer, n, i.rho, i.mu, i.lambda_gas, i.Pr, i.u_axial, i.delta_gap, i.d_hyd, i.B⟩

/-- The input record i with its u_axial field replaced by u, all other
fields held fixed. -/
def setUaxial (i : SealInputs) (u : ℝ) : SealInputs :=
  ⟨i.d_outer, i.n_rpm, i.rho, i.mu, i.lambda_gas, i.Pr, u, i.delta_gap, i.d_hyd, i.B⟩

/-- The input record i with its B field replaced by b, all other fields
held fixed. -/
def setB (i : SealInputs) (b : ℝ) : SealInputs :=
  ⟨i.d_outer, i.n_rpm, i.rho, i.mu, i.lambda_gas, i.Pr, i.u_axial, i.delta_gap, i.d_hyd, b⟩

/-- C5: holding all other inputs fixed, with rho, d_outer, d_hyd, mu
strictly positive, strictly increasing n_rpm strictly increases the
returned Re_rot; and with rho, delta_gap, mu strictly positive, strictly
increasing u_axial strictly increases the returned Re_ax. -/
theorem reynolds_strict_mono (i : SealInputs) (a b : ℝ) (hab : a < b)
    (hrho : 0 < i.rho) (hd : 0 < i.d_outer) (hdh : 0 < i.d_hyd) (hmu : 0 < i.mu)
    (hgap : 0 < i.delta_gap) :
    (calculateHeatTransfer (setRpm i a)).Re_rot <
      (calculateHeatTransfer (setRpm i b)).Re_rot ∧
    (calculateHeatTransfer (setUaxial i a)).Re_ax <
      (calculateHeatTransfer (setUaxial i b)).Re_ax := by
  have hmu0 : i.mu ≠ 0 := ne_of_gt hmu
  simp only [calculateHeatTransfer, setRpm, setUaxial]
  constructor
  · have key : ∀ n : ℝ, (i.rho * (2 * Real.pi * n / 60.0) * i.d_outer * i.d_hyd) /
        (2 * i.mu) = n * (i.rho * Real.pi * i.d_outer * i.d_hyd / (60 * i.mu)) := by
      intro n
      field_simp
      ring
    rw [key a, key b]
    have hC : 0 < i.rho * Real.pi * i.d_outer * i.d_hyd / (60 * i.mu) := by positivity
    exact mul_lt_mul_of_pos_right hab hC
  · have key : ∀ u : ℝ, (2 * i.rho * u * i.delta_gap) / i.mu =
        u * (2 * i.rho * i.delta_gap / i.mu) := by
      intro u
      field_simp
      ring
    rw [key a, key b]
    have hC : 0 < 2 * i.rho * i.delta_gap / i.mu := by positivity
    exact mul_lt_mul_of_pos_right hab hC

/-- Witness for C5 at the reference inputs, varying n_rpm and u_axial
from 1 to 2. -/
theorem reynolds_strict_mono_witness :
    (calculateHeatTransfer (setRpm INITIAL_INPUTS 1)).Re_rot <
      (calculateHeatTransfer (setRpm INITIAL_INPUTS 2)).Re_rot ∧
    (calculateHeatTransfer (setUaxial INITIAL_INPUTS 1)).Re_ax <
      (calculateHeatTransfer (setUaxial INITIAL_INPUTS 2)).Re_ax :=
  reynolds_strict_mono INITIAL_INPUTS 1 2 (by norm_num)
    (by norm_num [INITIAL_INPUTS]) (by norm_num [INITIAL_INPUTS])
    (by norm_num [INITIAL_INPUTS]) (by norm_num [INITIAL_INPUTS])
    (by norm_num [INITIAL_INPUTS])

/-- C6: for any input record, n_rpm = 0 yields Re_rot = 0, u_axial = 0
yields Re_ax = 0, and whenever the returned Re_ax is 0 the returned Nu_s
is 0 as well, since the principal real power sends 0^0.8 to 0. -/
theorem zero_boundary (i : SealInputs) :
    (i.n_rpm = 0 → (calculateHeatTransfer i).Re_rot = 0) ∧
    (i.u_axial = 0 → (calculateHeatTransfer i).Re_ax = 0) ∧
    ((calculateHeatTransfer i).Re_ax = 0 → (calculateHeatTransfer i).Nu_s = 0) := by
  simp only [calculateHeatTransfer]
  refine ⟨fun h => ?_, fun h => ?_, fun h => ?_⟩
  · rw [h]
    ring
  · rw [h]
    ring
  · rw [h, Real.zero_rpow (by norm_num)]
    ring

/-- The reference inputs with both speeds set to zero: n_rpm = 0 and
u_axial = 0. -/
noncomputable def zeroSpeedInputs : SealInputs :=
  ⟨0.150, 0, 1.225, 1.81e-5, 0.026, 0.71, 0, 5.0e-6, 1.0e-5, 2.0⟩

/-- Witness for C6 at the concrete zero-speed inputs. -/
theorem zero_boundary_witness :
    (calculateHeatTransfer zeroSpeedInputs).Re_rot = 0 ∧
    (calculateHeatTransfer zeroSpeedInputs).Re_ax = 0 ∧
    (calculateHeatTransfer zeroSpeedInputs).Nu_s = 0 :=
  ⟨(zero_boundary zeroSpeedInputs).1 rfl,
   (zero_boundary zeroSpeedInputs).2.1 rfl,
   (zero_boundary zeroSpeedInputs).2.2 ((zero_boundary zeroSpeedInputs).2.1 rfl)⟩

/-- C7: holding all other inputs fixed, doubling the input B exactly
doubles the returned Nu_s and the returned H_s. -/
theorem B_scaling (i : SealInputs) :
    (calculateHeatTransfer (setB i (2 * i.B))).Nu_s =
      2 * (calculateHeatTransfer i).Nu_s ∧
    (calculateHeatTransfer (setB i (2 * i.B))).H_s =
      2 * (calculateHeatTransfer i).H_s := by
  simp only [calculateHeatTransfer, setB]
  constructor
  · ring
  · ring

/-- C8: compute is deterministic and free of hidden state: its output is
a function of the ten input fields alone, so two input records that agree
on all ten fields produce identical SealResults. -/
theorem deterministic (i j : SealInputs)
    (h : i.d_outer = j.d_outer ∧ i.n_rpm = j.n_rpm ∧ i.rho = j.rho ∧ i.mu = j.mu ∧
      i.lambda_gas = j.lambda_gas ∧ i.Pr = j.Pr ∧ i.u_axial = j.u_axial ∧
      i.delta_gap = j.delta_gap ∧ i.d_hyd = j.d_hyd ∧ i.B = j.B) :
    calculateHeatTransfer i = calculateHeatTransfer j := by
  obtain ⟨h1, h2, h3, h4, h5, h6, h7, h8, h9, h10⟩ := h
  cases i
  cases j
  simp only at h1 h2 h3 h4 h5 h6 h7 h8 h9 h10
  subst_vars
  rfl

/-- A second, textually separate copy of the reference input record, used
to instantiate determinism on two identical records. -/
noncomputable def INITIAL_INPUTS_copy : SealInputs :=
  ⟨0.150, 10300, 1.225, 1.81e-5, 0.026, 0.71, 5.0, 5.0e-6, 1.0e-5, 2.0⟩

/-- Witness for C8: two invocations on field-identical records return the
same SealResults. -/
theorem deterministic_witness :
    calculateHeatTransfer INITIAL_INPUTS = calculateHeatTransfer INITIAL_INPUTS_copy :=
  deterministic INITIAL_INPUTS INITIAL_INPUTS_copy
    ⟨rfl, rfl, rfl, rfl, rfl, rfl, rfl, rfl, rfl, rfl⟩

/-- State-passing rendering of a call to calculateHeatTransfer: the pair
of the input record as it stands after the call and the returned result.
The source body only reads the ten destructured fields and builds a new
object literal; it contains no assignment to the argument or to any of
its fields, so the input state passes through the call unchanged. -/
noncomputable def calculateHeatTransferCall (inputs : SealInputs) :
    SealInputs × SealResults :=
  (inputs, calculateHeatTransfer inputs)

/-- C10: calculateHeatTransfer never mutates its argument — after the
call, all ten fields of the input record are unchanged, and the second
component of the call is the freshly built SealResults record, an object
of a different type than the input. -/
theorem no_mutation (i : SealInputs) :
    ((calculateHeatTransferCall i).1.d_outer = i.d_outer ∧
     (calculateHeatTransferCall i).1.n_rpm = i.n_rpm ∧
     (calculateHeatTransferCall i).1.rho = i.rho ∧
     (calculateHeatTransferCall i).1.mu = i.mu ∧
     (calculateHeatTransferCall i).1.lambda_gas = i.lambda_gas ∧
     (calculateHeatTransferCall i).1.Pr = i.Pr ∧
     (calculateHeatTransferCall i).1.u_axial = i.u_axial ∧
     (calculateHeatTransferCall i).1.delta_gap = i.delta_gap ∧
     (calculateHeatTransferCall i).1.d_hyd = i.d_hyd ∧
     (calculateHeatTransferCall i).1.B = i.B) ∧
    (calculateHeatTransferCall i).2 = calculateHeatTransfer i :=
  ⟨⟨rfl, rfl, rfl, rfl, rfl, rfl, rfl, rfl, rfl, rfl⟩, rfl⟩

end DryGasSeal
